import Mathlib

/-!
Verification of the reachability-analysis core of `network-reach/reach.py`
(CU-CommunityApps/ct-aws-network-tools).

IPv4 addresses are modelled as natural numbers (< 2^32); CIDR blocks as a
network address plus prefix length, as produced by `ipaddress.ip_network`
(strict parsing: host bits must be zero).  The print-as-you-go narration of
the script is modelled as an accumulated list of `Finding`s; Python `assert`
statements are modelled by returning `none`.
-/

namespace Reach

/-- A parsed IPv4 CIDR block (`ipaddress.ip_network`): network address and
prefix length. -/
structure Cidr where
  addr : Nat
  prefixLen : Nat
deriving DecidableEq, Repr

/-- The netmask integer of an IPv4 network with the given prefix length:
the top `p` bits of a 32-bit word set. -/
def ipv4Mask (p : Nat) : Nat := 2 ^ 32 - 2 ^ (32 - p)

/-- Membership of an address in an `ipaddress` network
(`_BaseNetwork.__contains__`): the address masked by the netmask equals the
network address. -/
def cidrContains (c : Cidr) (a : Nat) : Bool :=
  a &&& ipv4Mask c.prefixLen == c.addr

/-- The CIDR `0.0.0.0/0` (constant `ALL_IPV4` in the source). -/
def allIpv4 : Cidr := ⟨0, 0⟩

/-- A CIDR block that `ipaddress.ip_network` accepts with strict parsing:
prefix length at most 32, address a 32-bit word with all host bits zero. -/
def validCidr (c : Cidr) : Prop :=
  c.prefixLen ≤ 32 ∧ c.addr < 2 ^ 32 ∧ c.addr &&& ipv4Mask c.prefixLen = c.addr

/-- One entry of a route table, with the keys the script inspects.  A key
absent from the route dictionary is `none`. -/
structure Route where
  destinationCidrBlock : Option Cidr
  gatewayId : Option String
  natGatewayId : Option String
  vpcPeeringConnectionId : Option String
deriving DecidableEq, Repr

/-- The prefix length stored with the current best match (`-1` when the
`match` dictionary is still empty). -/
def accPrefixLen : Option (Route × Nat) → Int
  | none => -1
  | some (_, p) => (p : Int)

/-- The loop of `find_route_matches`: `acc` is the `match` dictionary
(`none` = empty), updated when a route's destination CIDR contains the
destination and has a strictly greater prefix length than the current best. -/
def findRouteMatchesAux (dest : Nat) (acc : Option (Route × Nat)) :
    List Route → Option (Route × Nat)
  | [] => acc
  | r :: rs =>
    match r.destinationCidrBlock with
    | none => findRouteMatchesAux dest acc rs
    | some c =>
      if cidrContains c dest then
        if (c.prefixLen : Int) > accPrefixLen acc then
          findRouteMatchesAux dest (some (r, c.prefixLen)) rs
        else
          findRouteMatchesAux dest acc rs
      else
        findRouteMatchesAux dest acc rs

/-- `find_route_matches(routes, dest_ip_str)`: longest-prefix-match route
resolution; returns `match.get('route', None)`. -/
def find_route_matches (routes : List Route) (dest : Nat) : Option Route :=
  (findRouteMatchesAux dest none routes).map Prod.fst

/-- Whether a route is considered by the resolver: it has a destination
CIDR block and that block contains the destination. -/
def routeMatches (dest : Nat) (r : Route) : Bool :=
  match r.destinationCidrBlock with
  | none => false
  | some c => cidrContains c dest

/-- The routes the resolver considers, in input order. -/
def matchingRoutes (routes : List Route) (dest : Nat) : List Route :=
  routes.filter (routeMatches dest)

/-- The prefix length of a route's destination CIDR (`0` when absent; only
used on routes that have one). -/
def routePrefixLen (r : Route) : Nat :=
  match r.destinationCidrBlock with
  | none => 0
  | some c => c.prefixLen

/-- Helper for `pyStartswith`: one list of characters starts with another. -/
def charsStart : List Char → List Char → Bool
  | _, [] => true
  | [], _ :: _ => false
  | c :: cs, d :: ds => c == d && charsStart cs ds

/-- Python's `str.startswith`, on the character data of the strings. -/
def pyStartswith (s pre : String) : Bool := charsStart s.data pre.data

/-- One element of a permission's `IpRanges`. -/
structure IpRange where
  cidrIp : Cidr
deriving DecidableEq, Repr

/-- One security-group permission (`IpPermissions` element), with the fields
the script inspects.  `ipv6Ranges`, `prefixListIds` and `userIdGroupPairs`
keep only the identifiers, which is all the script ever looks at. -/
structure IpPermission where
  ipRanges : List IpRange
  ipv6Ranges : List String
  prefixListIds : List String
  userIdGroupPairs : List String
deriving DecidableEq, Repr

/-- A security group: ingress and egress permission lists. -/
structure SecurityGroup where
  groupId : String
  ipPermissions : List IpPermission
  ipPermissionsEgress : List IpPermission
deriving DecidableEq, Repr

/-- One NACL entry: CIDR block and egress flag. -/
structure NaclEntry where
  cidrBlock : Cidr
  egress : Bool
deriving DecidableEq, Repr

/-- A network ACL: its entries. -/
structure Nacl where
  entries : List NaclEntry
deriving DecidableEq, Repr

/-- A gateway attachment record (`Attachments` / `VpcAttachments` element). -/
structure Attachment where
  state : String
deriving DecidableEq, Repr

/-- An internet gateway record. -/
structure InternetGateway where
  attachments : List Attachment
deriving DecidableEq, Repr

/-- A virtual private gateway record (`describe_vpn_gateways`). -/
structure VpnGateway where
  state : String
  vpcAttachments : List Attachment
deriving DecidableEq, Repr

/-- A NAT gateway record. -/
structure NatGateway where
  state : String
deriving DecidableEq, Repr

/-- One side of a VPC peering connection. -/
structure PeeringVpcInfo where
  vpcId : String
deriving DecidableEq, Repr

/-- A VPC peering connection record. -/
structure PeeringConnection where
  statusCode : String
  accepterVpcInfo : PeeringVpcInfo
  requesterVpcInfo : PeeringVpcInfo
deriving DecidableEq, Repr

/-- A BGP peer of a Direct Connect virtual interface. -/
structure BgpPeer where
  bgpPeerId : String
  bgpPeerState : String
  bgpStatus : String
deriving DecidableEq, Repr

/-- A Direct Connect virtual interface. -/
structure VirtualInterface where
  virtualInterfaceId : String
  virtualInterfaceName : String
  virtualGatewayId : String
  virtualInterfaceState : String
  bgpPeers : List BgpPeer
deriving DecidableEq, Repr

/-- A route table: identifier and routes. -/
structure RouteTable where
  routeTableId : String
  routes : List Route
deriving DecidableEq, Repr

/-- The already-fetched topology snapshot: each field models the response of
the corresponding describe-style API call made by the script. -/
structure Env where
  describeSecurityGroups : List String → List SecurityGroup
  routeTablesForSubnet : String → List RouteTable
  mainRouteTables : String → List RouteTable
  internetGateways : String → List InternetGateway
  vpnGateways : String → List VpnGateway
  natGateways : String → List NatGateway
  vpcPeeringConnections : String → List PeeringConnection
  virtualInterfaces : List VirtualInterface
  naclsForSubnets : List String → List Nacl

/-- One diagnostic message printed by the script, as a structured finding.
Constructors carry the evidence objects the script prints alongside. -/
inductive Finding where
  | sgIgnoringIpv6 : Finding
  | sgIgnoringPrefixList : Finding
  | sgNoIngress : Finding
  | sgNoEgress : Finding
  | rtNoRoute : Finding
  | igwNotAttached : Finding
  | igwOk : Finding
  | vgwNotAvailable : Finding
  | vgwNotAttached : Finding
  | otherGatewayNotAnalyzed : String → Finding
  | natNotAvailable : Finding
  | peeringNotActive : Finding
  | peeringDestInfo : PeeringVpcInfo → Finding
  | unknownRouteType : Finding
  | dcNoVifs : Finding
  | dcVifNotAvailable : VirtualInterface → Finding
  | dcBgpPeerIssue : BgpPeer → Finding
  | dcBgpPeerOk : BgpPeer → Finding
  | dcVifOk : VirtualInterface → Finding
  | naclNoInbound : Finding
  | naclNoOutbound : Finding
  | dbSubnetGroupMultipleRouteTables : Finding
  | dbSubnetGroupMultipleNacls : Finding
deriving DecidableEq, Repr

/-- `find_nacl_rule_matches(nacl_entries, dest_ip_str)`: collect the entries
whose CIDR block contains the destination, into (inbound, outbound) lists by
the `Egress` flag. -/
def find_nacl_rule_matches (entries : List NaclEntry) (dest : Nat) :
    List NaclEntry × List NaclEntry :=
  match entries with
  | [] => ([], [])
  | e :: es =>
    let rest := find_nacl_rule_matches es dest
    if cidrContains e.cidrBlock dest then
      if e.egress then (rest.1, e :: rest.2) else (e :: rest.1, rest.2)
    else rest

/-- The value of `matched_p` after one iteration of the loop in
`find_security_group_matches`: set when some `IpRanges` element is the
literal `ALL_IPV4` or contains the destination, or when `UserIdGroupPairs`
is non-empty. -/
def sgPermMatch (dest : Nat) (p : IpPermission) : Bool :=
  (if p.ipRanges.length > 0 then
    p.ipRanges.any (fun r => r.cidrIp == allIpv4 || cidrContains r.cidrIp dest)
  else false)
  || !p.userIdGroupPairs.isEmpty

/-- The `WARNING` prints of one iteration of the loop in
`find_security_group_matches`. -/
def sgPermWarnings (p : IpPermission) : List Finding :=
  (if p.ipv6Ranges.length > 0 then [Finding.sgIgnoringIpv6] else [])
  ++ (if p.prefixListIds.length > 0 then [Finding.sgIgnoringPrefixList] else [])

/-- `find_security_group_matches(permissions, dest_ip_str)`: the warnings it
prints and the list of permissions appended to `matches`. -/
def find_security_group_matches (perms : List IpPermission) (dest : Nat) :
    List Finding × List IpPermission :=
  match perms with
  | [] => ([], [])
  | p :: ps =>
    let rest := find_security_group_matches ps dest
    (sgPermWarnings p ++ rest.1,
     if sgPermMatch dest p then p :: rest.2 else rest.2)

/-- `get_security_groups(client, sg_group_ids, dest_ip_address)`: fetch the
groups (asserting the response length), and concatenate the per-group
ingress and egress matches.  Returns the warnings printed along the way. -/
def get_security_groups (env : Env) (ids : List String) (dest : Nat) :
    Option (List Finding × List IpPermission × List IpPermission) :=
  let sgs := env.describeSecurityGroups ids
  if sgs.length = ids.length then
    some (sgs.flatMap (fun g =>
            (find_security_group_matches g.ipPermissions dest).1
            ++ (find_security_group_matches g.ipPermissionsEgress dest).1),
          sgs.flatMap (fun g => (find_security_group_matches g.ipPermissions dest).2),
          sgs.flatMap (fun g => (find_security_group_matches g.ipPermissionsEgress dest).2))
  else none

/-- `report_security_groups(...)`: zero ingress matches and zero egress
matches are each a `NETWORK CONNECTIVITY ERROR`. -/
def report_security_groups (env : Env) (ids : List String) (dest : Nat) :
    Option (List Finding × Bool) :=
  match get_security_groups env ids dest with
  | none => none
  | some (ws, ing, eg) =>
    some (ws ++ (if ing.isEmpty then [Finding.sgNoIngress] else [])
             ++ (if eg.isEmpty then [Finding.sgNoEgress] else []),
          ing.isEmpty || eg.isEmpty)

/-- `report_nacl(source_nacl, ...)`: zero relevant inbound rules and zero
relevant outbound rules are each a `NETWORK CONNECTIVITY ERROR`. -/
def report_nacl (nacl : Nacl) (dest : Nat) : List Finding × Bool :=
  let rules := find_nacl_rule_matches nacl.entries dest
  ((if rules.1.isEmpty then [Finding.naclNoInbound] else [])
   ++ (if rules.2.isEmpty then [Finding.naclNoOutbound] else []),
   rules.1.isEmpty || rules.2.isEmpty)

/-- `get_dc_virtual_interface(virtual_gateway_id)`: the virtual interfaces
whose `virtualGatewayId` equals the given gateway id. -/
def get_dc_virtual_interface (env : Env) (gid : String) : List VirtualInterface :=
  env.virtualInterfaces.filter (fun i => i.virtualGatewayId == gid)

/-- One iteration of the BGP-peer loop in `report_dc_virtual_interfaces`. -/
def reportBgpPeer (p : BgpPeer) : List Finding × Bool :=
  if p.bgpStatus != "up" || p.bgpPeerState != "available" then
    ([Finding.dcBgpPeerIssue p], true)
  else
    ([Finding.dcBgpPeerOk p], false)

/-- One iteration of the interface loop in `report_dc_virtual_interfaces`:
findings printed for this interface and its `this_interface_problem` flag. -/
def reportVif (v : VirtualInterface) : List Finding × Bool :=
  ((if v.virtualInterfaceState != "available" then
      [Finding.dcVifNotAvailable v] else [])
   ++ v.bgpPeers.flatMap (fun p => (reportBgpPeer p).1)
   ++ (if (v.virtualInterfaceState != "available")
          || v.bgpPeers.any (fun p => (reportBgpPeer p).2) then []
       else [Finding.dcVifOk v]),
   (v.virtualInterfaceState != "available")
   || v.bgpPeers.any (fun p => (reportBgpPeer p).2))

/-- `report_dc_virtual_interfaces(dc_vifs)`: no interfaces at all is an
error; otherwise every interface is checked and the problem flags are
accumulated with `or`. -/
def report_dc_virtual_interfaces (vifs : List VirtualInterface) :
    List Finding × Bool :=
  if vifs.isEmpty then ([Finding.dcNoVifs], true)
  else (vifs.flatMap (fun v => (reportVif v).1),
        vifs.any (fun v => (reportVif v).2))

/-- The `igw-` branch of `report_route_table`: asserts exactly one gateway
record with exactly one attachment, then checks the attachment state. -/
def reportIgw (env : Env) (gid : String) : Option (List Finding × Bool) :=
  match env.internetGateways gid with
  | [igw] =>
    match igw.attachments with
    | [att] =>
      if att.state != "available" then some ([Finding.igwNotAttached], true)
      else some ([Finding.igwOk], false)
    | _ => none
  | _ => none

/-- The `vgw-` branch of `report_route_table`: asserts exactly one gateway
record with exactly one VPC attachment, checks gateway state and attachment
state, then checks the Direct Connect virtual interfaces. -/
def reportVgw (env : Env) (gid : String) : Option (List Finding × Bool) :=
  match env.vpnGateways gid with
  | [vgw] =>
    match vgw.vpcAttachments with
    | [att] =>
      some ((if vgw.state != "available" then [Finding.vgwNotAvailable] else [])
            ++ (if att.state != "attached" then [Finding.vgwNotAttached] else [])
            ++ (report_dc_virtual_interfaces (get_dc_virtual_interface env gid)).1,
            ((vgw.state != "available") || (att.state != "attached"))
            || (report_dc_virtual_interfaces (get_dc_virtual_interface env gid)).2)
    | _ => none
  | _ => none

/-- The `NatGatewayId` branch of `report_route_table`. -/
def reportNat (env : Env) (nid : String) : Option (List Finding × Bool) :=
  match env.natGateways nid with
  | [ng] =>
    some ((if ng.state != "available" then [Finding.natNotAvailable] else []),
          ng.state != "available")
  | _ => none

/-- The `VpcPeeringConnectionId` branch of `report_route_table`: checks the
status code and surfaces the other side's VPC info as evidence. -/
def reportPeering (env : Env) (srcVpcId : String) (pid : String) :
    Option (List Finding × Bool) :=
  match env.vpcPeeringConnections pid with
  | [pc] =>
    some ((if pc.statusCode != "active" then [Finding.peeringNotActive] else [])
          ++ [Finding.peeringDestInfo
                (if pc.accepterVpcInfo.vpcId == srcVpcId then pc.requesterVpcInfo
                 else pc.accepterVpcInfo)],
          pc.statusCode != "active")
  | _ => none

/-- The `elif` chain of `report_route_table` dispatching on the resolved
route's target keys. -/
def reportRouteTarget (env : Env) (srcVpcId : String) (r : Route) :
    Option (List Finding × Bool) :=
  match r.gatewayId with
  | some g =>
    if pyStartswith g "igw-" then reportIgw env g
    else if pyStartswith g "vgw-" then reportVgw env g
    else some ([Finding.otherGatewayNotAnalyzed g], false)
  | none =>
    match r.natGatewayId with
    | some n => reportNat env n
    | none =>
      match r.vpcPeeringConnectionId with
      | some pid => reportPeering env srcVpcId pid
      | none => some ([Finding.unknownRouteType], true)

/-- `report_route_table(...)`: resolve the route for the destination; no
route is an error, otherwise dispatch on the route's target. -/
def report_route_table (env : Env) (rt : RouteTable) (srcVpcId : String)
    (dest : Nat) : Option (List Finding × Bool) :=
  match find_route_matches rt.routes dest with
  | none => some ([Finding.rtNoRoute], true)
  | some r => reportRouteTarget env srcVpcId r

/-- `get_route_table_for_subnet(client, vpc_id, subnet_id)`: at most one
explicitly associated table (else the assertion fails); fall back to the
VPC's main route table (asserting exactly one). -/
def get_route_table_for_subnet (env : Env) (vpcId subnetId : String) :
    Option RouteTable :=
  match env.routeTablesForSubnet subnetId with
  | [] =>
    match env.mainRouteTables vpcId with
    | [t] => some t
    | _ => none
  | [t] => some t
  | _ => none

/-- One `dict` update of `get_route_tables_for_subnets`: keyed by
`RouteTableId`, insertion order preserved. -/
def upsertRouteTable (m : List (String × RouteTable)) (t : RouteTable) :
    List (String × RouteTable) :=
  if m.any (fun kv => kv.1 == t.routeTableId) then
    m.map (fun kv => if kv.1 == t.routeTableId then (kv.1, t) else kv)
  else m ++ [(t.routeTableId, t)]

/-- The loop of `get_route_tables_for_subnets`, threading the dict. -/
def gatherRouteTables (env : Env) (vpcId : String)
    (acc : List (String × RouteTable)) :
    List String → Option (List (String × RouteTable))
  | [] => some acc
  | sid :: sids =>
    match get_route_table_for_subnet env vpcId sid with
    | none => none
    | some t => gatherRouteTables env vpcId (upsertRouteTable acc t) sids

/-- `get_route_tables_for_subnets(client, vpc_id, list_subnet_ids)`. -/
def get_route_tables_for_subnets (env : Env) (vpcId : String)
    (ids : List String) : Option (List RouteTable) :=
  (gatherRouteTables env vpcId [] ids).map (fun m => m.map Prod.snd)

/-- `report_db_subnet_groups(...)`: warnings (never problems) when the
subnet group's subnets span more than one route table or NACL; always
returns `False`. -/
def report_db_subnet_groups (env : Env) (vpcId : String) (ids : List String) :
    Option (List Finding × Bool) :=
  match get_route_tables_for_subnets env vpcId ids with
  | none => none
  | some rts =>
    if rts.length = 0 then none
    else if (env.naclsForSubnets ids).length = 0 then none
    else
      some ((if rts.length > 1 then [Finding.dbSubnetGroupMultipleRouteTables] else [])
            ++ (if (env.naclsForSubnets ids).length > 1 then
                  [Finding.dbSubnetGroupMultipleNacls] else []),
            false)

/-- The analysis section of `main`: the optional subnet-group consistency
check (RDS/DMS sources), then security groups, route table and gateway
chain, and NACL, accumulating `network_problem_exists` with `or` and never
stopping early.  `none` models a failed `assert`. -/
def mainAnalysis (env : Env) (dbSubnetIds : Option (List String))
    (sgIds : List String) (srcVpcId srcSubnetId : String) (dest : Nat) :
    Option (List Finding × Bool) :=
  match (match dbSubnetIds with
         | none => some (([] : List Finding), false)
         | some ids => report_db_subnet_groups env srcVpcId ids) with
  | none => none
  | some dbPart =>
    match report_security_groups env sgIds dest with
    | none => none
    | some sg =>
      match get_route_table_for_subnet env srcVpcId srcSubnetId with
      | none => none
      | some srcTable =>
        match report_route_table env srcTable srcVpcId dest with
        | none => none
        | some rt =>
          match env.naclsForSubnets [srcSubnetId] with
          | [nacl0] =>
            some (dbPart.1 ++ sg.1 ++ rt.1 ++ (report_nacl nacl0 dest).1,
                  ((dbPart.2 || sg.2) || rt.2) || (report_nacl nacl0 dest).2)
          | _ => none

/-- Whether a finding is one of the script's `NETWORK CONNECTIVITY ERROR` /
`ERROR` messages (problem severity), as opposed to a `WARNING` or an
informational message. -/
def Finding.isProblem : Finding → Bool
  | .sgNoIngress => true
  | .sgNoEgress => true
  | .rtNoRoute => true
  | .igwNotAttached => true
  | .vgwNotAvailable => true
  | .vgwNotAttached => true
  | .natNotAvailable => true
  | .peeringNotActive => true
  | .unknownRouteType => true
  | .dcNoVifs => true
  | .dcVifNotAvailable _ => true
  | .dcBgpPeerIssue _ => true
  | .naclNoInbound => true
  | .naclNoOutbound => true
  | _ => false

/-- Whether a finding is one printed inside `report_dc_virtual_interfaces`. -/
def Finding.isDcFinding : Finding → Bool
  | .dcNoVifs => true
  | .dcVifNotAvailable _ => true
  | .dcBgpPeerIssue _ => true
  | .dcBgpPeerOk _ => true
  | .dcVifOk _ => true
  | _ => false

/-- Sample destination address `10.1.2.3`. -/
def d0 : Nat := 0x0A010203

/-- Sample permission allowing `10.0.0.0/8`. -/
def permA : IpPermission := ⟨[⟨⟨0x0A000000, 8⟩⟩], [], [], []⟩

/-- Sample permission with only an IPv6 range. -/
def permV6 : IpPermission := ⟨[], ["::/0"], [], []⟩

/-- Sample security group. -/
def sgA : SecurityGroup := ⟨"sg-1", [permA], [permA]⟩

/-- Sample NACL covering both directions. -/
def naclA : Nacl := ⟨[⟨⟨0, 0⟩, false⟩, ⟨⟨0, 0⟩, true⟩]⟩

/-- Sample default route through an internet gateway. -/
def routeIgw : Route := ⟨some ⟨0, 0⟩, some "igw-1", none, none⟩

/-- Sample route table holding only `routeIgw`. -/
def rtIgw : RouteTable := ⟨"rtb-1", [routeIgw]⟩

/-- Sample route table whose only route targets an unrecognized gateway
type (a transit gateway). -/
def rtTgw : RouteTable := ⟨"rtb-2", [⟨some ⟨0, 0⟩, some "tgw-1", none, none⟩]⟩

/-- Sample route table whose only route targets a virtual private gateway. -/
def rtVgw : RouteTable := ⟨"rtb-3", [⟨some ⟨0, 0⟩, some "vgw-1", none, none⟩]⟩

/-- Sample healthy BGP peer. -/
def bgpGood : BgpPeer := ⟨"peer-1", "available", "up"⟩

/-- Sample healthy virtual interface bound to `vgw-1`. -/
def vifGood : VirtualInterface := ⟨"dxvif-1", "vif1", "vgw-1", "available", [bgpGood]⟩

/-- Sample route with a `10.0.0.0/8` destination. -/
def routeSlash8 : Route := ⟨some ⟨0x0A000000, 8⟩, some "igw-a", none, none⟩

/-- Sample route with a `10.1.0.0/16` destination. -/
def routeSlash16 : Route := ⟨some ⟨0x0A010000, 16⟩, some "igw-b", none, none⟩

/-- Sample topology snapshot.  The virtual private gateway `vgw-1` is in
state `pending` (not valid) and no virtual interfaces exist. -/
def env0 : Env where
  describeSecurityGroups := fun _ => [sgA]
  routeTablesForSubnet := fun _ => [rtIgw]
  mainRouteTables := fun _ => []
  internetGateways := fun _ => [⟨[⟨"available"⟩]⟩]
  vpnGateways := fun _ => [⟨"pending", [⟨"attached"⟩]⟩]
  natGateways := fun _ => []
  vpcPeeringConnections := fun _ => []
  virtualInterfaces := []
  naclsForSubnets := fun _ => [naclA]

/-- The destination CIDRs and prefix lengths of the routes the resolver
considers, paired with the routes, in input order. -/
def matchingPairs (routes : List Route) (dest : Nat) : List (Route × Nat) :=
  routes.filterMap (fun r =>
    match r.destinationCidrBlock with
    | none => none
    | some c => if cidrContains c dest then some (r, c.prefixLen) else none)

/-- The loop of `find_route_matches` restricted to the matching routes. -/
def bestAux (acc : Option (Route × Nat)) : List (Route × Nat) → Option (Route × Nat)
  | [] => acc
  | x :: xs =>
    if (x.2 : Int) > accPrefixLen acc then bestAux (some x) xs else bestAux acc xs

theorem findRouteMatchesAux_eq_bestAux (dest : Nat) (routes : List Route) :
    ∀ acc, findRouteMatchesAux dest acc routes = bestAux acc (matchingPairs routes dest) := by
  induction routes with
  | nil => intro acc; rfl
  | cons r rs ih =>
    intro acc
    cases hd : r.destinationCidrBlock with
    | none => simp [findRouteMatchesAux, matchingPairs, hd, ih,
        List.filterMap_cons]
    | some c =>
      by_cases hc : cidrContains c dest
      · simp only [findRouteMatchesAux, matchingPairs, hd, hc, if_pos,
          List.filterMap_cons]
        by_cases hgt : (c.prefixLen : Int) > accPrefixLen acc
        · simp [hgt, ih, bestAux, matchingPairs]
        · simp [hgt, ih, bestAux, matchingPairs]
      · simp [findRouteMatchesAux, matchingPairs, hd, hc, ih,
          List.filterMap_cons]

theorem bestAux_some_ne_none (x : Route × Nat) (l : List (Route × Nat)) :
    ∀ y, bestAux (some y) l ≠ none := by
  induction l with
  | nil => intro y h; exact Option.noConfusion h
  | cons z zs ih =>
    intro y
    simp only [bestAux]
    split
    · exact ih z
    · exact ih y

theorem bestAux_none_eq_none_iff (l : List (Route × Nat)) :
    bestAux none l = none ↔ l = [] := by
  cases l with
  | nil => simp [bestAux]
  | cons x xs =>
    simp only [bestAux]
    have hgt : (x.2 : Int) > accPrefixLen none := by
      simp [accPrefixLen]; omega
    simp only [hgt, if_pos]
    constructor
    · intro h; exact absurd h (bestAux_some_ne_none x xs x)
    · intro h; exact List.noConfusion h

theorem bestAux_some_spec (l : List (Route × Nat)) :
    ∀ acc r p, bestAux acc l = some (r, p) →
      (acc = some (r, p) ∧ ∀ x ∈ l, x.2 ≤ p) ∨
      (accPrefixLen acc < (p : Int) ∧
        ∃ l1 l2, l = l1 ++ (r, p) :: l2 ∧ (∀ x ∈ l1, x.2 < p) ∧
          (∀ x ∈ l2, x.2 ≤ p)) := by
  induction l with
  | nil =>
    intro acc r p h
    exact Or.inl ⟨h, by simp⟩
  | cons x xs ih =>
    intro acc r p h
    simp only [bestAux] at h
    by_cases hgt : (x.2 : Int) > accPrefixLen acc
    · rw [if_pos hgt] at h
      rcases ih (some x) r p h with ⟨hx, hall⟩ | ⟨hlt, l1, l2, hsplit, h1, h2⟩
      · refine Or.inr ⟨?_, [], xs, ?_, by simp, hall⟩
        · have hxe : x = (r, p) := Option.some.inj hx
          rw [hxe] at hgt; exact hgt
        · have hxe : x = (r, p) := Option.some.inj hx
          rw [hxe]; simp
      · have hxlt : x.2 < p := by simp [accPrefixLen] at hlt; exact_mod_cast hlt
        refine Or.inr ⟨?_, x :: l1, l2, by rw [hsplit, List.cons_append], ?_, h2⟩
        · have : accPrefixLen acc < (x.2 : Int) := hgt
          have : (x.2 : Int) < (p : Int) := by exact_mod_cast hxlt
          omega
        · intro y hy
          rcases List.mem_cons.mp hy with hy | hy
          · rw [hy]; exact hxlt
          · exact h1 y hy
    · rw [if_neg hgt] at h
      have hxle : (x.2 : Int) ≤ accPrefixLen acc := by omega
      rcases ih acc r p h with ⟨hacc, hall⟩ | ⟨hlt, l1, l2, hsplit, h1, h2⟩
      · refine Or.inl ⟨hacc, ?_⟩
        intro y hy
        rcases List.mem_cons.mp hy with hy | hy
        · rw [hacc] at hxle
          simp [accPrefixLen] at hxle
          rw [hy]; exact_mod_cast hxle
        · exact hall y hy
      · refine Or.inr ⟨hlt, x :: l1, l2, by rw [hsplit, List.cons_append], ?_, h2⟩
        intro y hy
        rcases List.mem_cons.mp hy with hy | hy
        · have : (x.2 : Int) < (p : Int) := by omega
          rw [hy]; exact_mod_cast this
        · exact h1 y hy

theorem matchingPairs_eq_map (routes : List Route) (dest : Nat) :
    matchingPairs routes dest
      = (matchingRoutes routes dest).map (fun r => (r, routePrefixLen r)) := by
  induction routes with
  | nil => rfl
  | cons r rs ih =>
    cases hd : r.destinationCidrBlock with
    | none =>
      simp [matchingPairs, matchingRoutes, routeMatches, hd, List.filterMap_cons,
        List.filter_cons] at ih ⊢
      exact ih
    | some c =>
      by_cases hc : cidrContains c dest
      · simp only [matchingPairs, matchingRoutes, routeMatches, hd, hc,
          List.filterMap_cons, List.filter_cons, if_pos] at ih ⊢
        simp [routePrefixLen, hd, hc]
        exact ih
      · simp only [matchingPairs, matchingRoutes, routeMatches, hd, hc,
          List.filterMap_cons, List.filter_cons] at ih ⊢
        simp [hc] at ih ⊢
        exact ih

/-- Transfer an append-cons split through `List.map`. -/
theorem map_split_of_eq {α β : Type} (f : α → β) :
    ∀ (m : List α) (l1 l2 : List β) (x : β), m.map f = l1 ++ x :: l2 →
      ∃ m1 a m2, m = m1 ++ a :: m2 ∧ m1.map f = l1 ∧ f a = x ∧ m2.map f = l2 := by
  intro m
  induction m with
  | nil => intro l1 l2 x h; simp at h
  | cons b bs ih =>
    intro l1 l2 x h
    cases l1 with
    | nil =>
      simp only [List.map_cons, List.nil_append, List.cons.injEq] at h
      exact ⟨[], b, bs, rfl, rfl, h.1, h.2⟩
    | cons y ys =>
      simp only [List.map_cons, List.cons_append, List.cons.injEq] at h
      obtain ⟨hb, hrest⟩ := h
      obtain ⟨m1, a, m2, hm, h1, h2, h3⟩ := ih ys l2 x hrest
      exact ⟨b :: m1, a, m2, by rw [hm, List.cons_append], by simp [hb, h1], h2, h3⟩

/-- C1.  Route resolution is longest-prefix-match: `find_route_matches`
considers exactly the routes that have a destination CIDR containing the
destination; it returns `None` iff there is no such route, and otherwise the
first route, in input order, whose prefix length is greatest among them. -/
theorem find_route_matches_lpm_spec (routes : List Route) (dest : Nat) :
    (find_route_matches routes dest = none ↔ matchingRoutes routes dest = []) ∧
    (∀ r, find_route_matches routes dest = some r →
      ∃ l1 l2, matchingRoutes routes dest = l1 ++ r :: l2 ∧
        (∀ r' ∈ l1, routePrefixLen r' < routePrefixLen r) ∧
        (∀ r' ∈ l2, routePrefixLen r' ≤ routePrefixLen r)) := by
  have hkey : findRouteMatchesAux dest none routes
      = bestAux none (matchingPairs routes dest) :=
    findRouteMatchesAux_eq_bestAux dest routes none
  constructor
  · rw [find_route_matches, hkey]
    rw [Option.map_eq_none']
    rw [bestAux_none_eq_none_iff]
    rw [matchingPairs_eq_map]
    simp
  · intro r hr
    rw [find_route_matches, hkey] at hr
    rcases ho : bestAux none (matchingPairs routes dest) with _ | ⟨rb, p⟩
    · rw [ho] at hr; exact Option.noConfusion hr
    · rw [ho] at hr
      have hrb : rb = r := by
        simpa using hr
      subst hrb
      rcases bestAux_some_spec (matchingPairs routes dest) none rb p ho with
        ⟨hacc, _⟩ | ⟨_, l1, l2, hsplit, h1, h2⟩
      · exact Option.noConfusion hacc
      · rw [matchingPairs_eq_map] at hsplit
        obtain ⟨m1, a, m2, hm, hmap1, hfa, hmap2⟩ :=
          map_split_of_eq _ _ l1 l2 (rb, p) hsplit
        have ha : a = rb ∧ routePrefixLen a = p := by
          constructor
          · exact congrArg Prod.fst hfa
          · exact congrArg Prod.snd hfa
        refine ⟨m1, m2, by rw [hm, ha.1], ?_, ?_⟩
        · intro r' hr'
          have : (r', routePrefixLen r') ∈ l1 := by
            rw [← hmap1]; exact List.mem_map_of_mem _ hr'
          have := h1 _ this
          simp only at this
          rw [← ha.2] at this
          rw [ha.1] at this
          exact this
        · intro r' hr'
          have : (r', routePrefixLen r') ∈ l2 := by
            rw [← hmap2]; exact List.mem_map_of_mem _ hr'
          have := h2 _ this
          simp only at this
          rw [← ha.2] at this
          rw [ha.1] at this
          exact this

/-- Witness for C1 at the spec's own example: routes for `10.0.0.0/8` and
`10.1.0.0/16`, destination `10.1.2.3`; the `/16` route is returned. -/
theorem find_route_matches_lpm_spec_witness :
    ∃ l1 l2, matchingRoutes [routeSlash8, routeSlash16] d0 = l1 ++ routeSlash16 :: l2 ∧
      (∀ r' ∈ l1, routePrefixLen r' < routePrefixLen routeSlash16) ∧
      (∀ r' ∈ l2, routePrefixLen r' ≤ routePrefixLen routeSlash16) :=
  (find_route_matches_lpm_spec [routeSlash8, routeSlash16] d0).2
    routeSlash16 (by decide)

/-- C2.  CIDR containment has mask semantics: for a (strictly parsed) CIDR
block and a 32-bit address, containment holds iff the address masked by the
prefix equals the network address masked the same way; and `0.0.0.0/0`
contains every address. -/
theorem cidrContains_mask_spec (c : Cidr) (a : Nat)
    (hv : validCidr c) (ha : a < 2 ^ 32) :
    (cidrContains c a = true ↔
      a &&& ipv4Mask c.prefixLen = c.addr &&& ipv4Mask c.prefixLen) ∧
    cidrContains allIpv4 a = true := by
  obtain ⟨hp, haddr, hm⟩ := hv
  constructor
  · rw [cidrContains, beq_iff_eq, hm]
  · have h0 : ipv4Mask 0 = 0 := by norm_num [ipv4Mask]
    simp [cidrContains, allIpv4, h0]

/-- Witness for C2 at `10.0.0.0/8` and address `10.1.2.3`. -/
theorem cidrContains_mask_spec_witness :
    (cidrContains ⟨0x0A000000, 8⟩ 0x0A010203 = true ↔
      0x0A010203 &&& ipv4Mask 8 = 0x0A000000 &&& ipv4Mask 8) ∧
    cidrContains allIpv4 0x0A010203 = true :=
  cidrContains_mask_spec ⟨0x0A000000, 8⟩ 0x0A010203
    ⟨by decide, by decide, by decide⟩ (by decide)

theorem fsm_snd_eq_filter (perms : List IpPermission) (dest : Nat) :
    (find_security_group_matches perms dest).2 = perms.filter (sgPermMatch dest) := by
  induction perms with
  | nil => rfl
  | cons p ps ih =>
    simp only [find_security_group_matches, List.filter_cons]
    by_cases h : sgPermMatch dest p
    · simp [h, ih]
    · simp [h, ih]

theorem fsm_fst_eq_flatMap (perms : List IpPermission) (dest : Nat) :
    (find_security_group_matches perms dest).1 = perms.flatMap sgPermWarnings := by
  induction perms with
  | nil => rfl
  | cons p ps ih => simp [find_security_group_matches, ih]

theorem sgPermMatch_eq_claim (dest : Nat) (p : IpPermission) :
    sgPermMatch dest p
      = (p.ipRanges.any (fun r => r.cidrIp == allIpv4 || cidrContains r.cidrIp dest)
         || !p.userIdGroupPairs.isEmpty) := by
  rw [sgPermMatch]
  cases hr : p.ipRanges with
  | nil => simp
  | cons a l => simp

theorem filter_map_eq {α β : Type} (f : α → β) (p : β → Bool) (l : List α) :
    (l.map f).filter p = (l.filter (fun a => p (f a))).map f := by
  induction l with
  | nil => rfl
  | cons a as ih => by_cases h : p (f a) <;> simp [List.filter_cons, h, ih]

theorem sgPermWarnings_cases (p : IpPermission) (f : Finding)
    (h : f ∈ sgPermWarnings p) :
    f = Finding.sgIgnoringIpv6 ∨ f = Finding.sgIgnoringPrefixList := by
  rw [sgPermWarnings] at h
  rcases List.mem_append.mp h with h | h
  · left
    by_cases h6 : p.ipv6Ranges.length > 0 <;> simp [h6] at h <;> simp [h]
  · right
    by_cases hp : p.prefixListIds.length > 0 <;> simp [hp] at h <;> simp [h]

theorem fsm_fst_cases (perms : List IpPermission) (dest : Nat) (f : Finding)
    (h : f ∈ (find_security_group_matches perms dest).1) :
    f = Finding.sgIgnoringIpv6 ∨ f = Finding.sgIgnoringPrefixList := by
  rw [fsm_fst_eq_flatMap] at h
  obtain ⟨p, _, hp⟩ := List.mem_flatMap.mp h
  exact sgPermWarnings_cases p f hp

/-- C10.  Security-group evaluation returns an order-preserving subsequence
of the input permission list: each input permission occurrence contributes
at most one output occurrence, however many of its ranges match. -/
theorem find_security_group_matches_sublist (perms : List IpPermission) (dest : Nat) :
    ((find_security_group_matches perms dest).2).Sublist perms := by
  rw [fsm_snd_eq_filter]
  exact List.filter_sublist perms

/-- Witness for C10 on a one-permission list. -/
theorem find_security_group_matches_sublist_witness :
    ((find_security_group_matches [permA] d0).2).Sublist [permA] :=
  find_security_group_matches_sublist [permA] d0

/-- C4.  A permission matches iff one of its CIDR ranges is the match-all
CIDR or contains the destination, or it carries a peer-group reference; and
for each direction, zero matches across all permissions yields the problem
finding for that direction. -/
theorem security_group_matching_spec (dest : Nat) :
    (∀ perms, (find_security_group_matches perms dest).2
        = perms.filter (fun p =>
            p.ipRanges.any (fun r => r.cidrIp == allIpv4 || cidrContains r.cidrIp dest)
            || !p.userIdGroupPairs.isEmpty)) ∧
    (∀ env ids ws ing eg, get_security_groups env ids dest = some (ws, ing, eg) →
      ∃ fs b, report_security_groups env ids dest = some (fs, b) ∧
        ((Finding.sgNoIngress ∈ fs) ↔ ing = []) ∧
        ((Finding.sgNoEgress ∈ fs) ↔ eg = [])) := by
  constructor
  · intro perms
    rw [fsm_snd_eq_filter]
    exact List.filter_congr (fun p _ => sgPermMatch_eq_claim dest p)
  · intro env ids ws ing eg h
    have hws : ∀ f ∈ ws, f = Finding.sgIgnoringIpv6 ∨ f = Finding.sgIgnoringPrefixList := by
      rw [get_security_groups] at h
      split at h
      · obtain ⟨hw, _, _⟩ := Prod.mk.injEq _ _ _ _ ▸ Option.some.inj h
        intro f hf
        rw [← hw] at hf
        obtain ⟨g, _, hg⟩ := List.mem_flatMap.mp hf
        rcases List.mem_append.mp hg with hg | hg
        · exact fsm_fst_cases _ dest f hg
        · exact fsm_fst_cases _ dest f hg
      · exact Option.noConfusion h
    refine ⟨_, _, by rw [report_security_groups, h], ?_, ?_⟩
    · constructor
      · intro hmem
        rcases List.mem_append.mp hmem with hmem | hmem
        · rcases List.mem_append.mp hmem with hmem | hmem
          · rcases hws _ hmem with h' | h' <;> exact absurd h' (by decide)
          · by_cases hi : ing.isEmpty
            · exact List.isEmpty_iff.mp hi
            · simp [hi] at hmem
        · by_cases he : eg.isEmpty <;> simp [he] at hmem
      · intro hing
        subst hing
        simp [List.mem_append]
    · constructor
      · intro hmem
        rcases List.mem_append.mp hmem with hmem | hmem
        · rcases List.mem_append.mp hmem with hmem | hmem
          · rcases hws _ hmem with h' | h' <;> exact absurd h' (by decide)
          · by_cases hi : ing.isEmpty <;> simp [hi] at hmem
        · by_cases he : eg.isEmpty
          · exact List.isEmpty_iff.mp he
          · simp [he] at hmem
      · intro heg
        subst heg
        simp [List.mem_append]

/-- Witness for C4: one group whose single permission matches in both
directions; neither direction-level problem finding is raised. -/
theorem security_group_matching_spec_witness :
    ∃ fs b, report_security_groups env0 ["sg-1"] d0 = some (fs, b) ∧
      ((Finding.sgNoIngress ∈ fs) ↔ [permA] = ([] : List IpPermission)) ∧
      ((Finding.sgNoEgress ∈ fs) ↔ [permA] = ([] : List IpPermission)) :=
  (security_group_matching_spec d0).2 env0 ["sg-1"] [] [permA] [permA] (by decide)

/-- C9.  IPv6 ranges and prefix-list references never affect matching;
their presence only emits non-problem warnings, and evaluation continues
over the whole permission list. -/
theorem sg_unsupported_rule_shapes (perms : List IpPermission) (dest : Nat)
    (v6 pl : List String) :
    ((find_security_group_matches
        (perms.map (fun p => { p with ipv6Ranges := v6, prefixListIds := pl })) dest).2
      = ((find_security_group_matches perms dest).2).map
          (fun p => { p with ipv6Ranges := v6, prefixListIds := pl })) ∧
    ((Finding.sgIgnoringIpv6 ∈ (find_security_group_matches perms dest).1) ↔
      ∃ p ∈ perms, p.ipv6Ranges ≠ []) ∧
    ((Finding.sgIgnoringPrefixList ∈ (find_security_group_matches perms dest).1) ↔
      ∃ p ∈ perms, p.prefixListIds ≠ []) ∧
    (∀ f ∈ (find_security_group_matches perms dest).1, f.isProblem = false) := by
  refine ⟨?_, ?_, ?_, ?_⟩
  · rw [fsm_snd_eq_filter, fsm_snd_eq_filter, filter_map_eq]
    have hpred : (fun a => sgPermMatch dest
        ({ a with ipv6Ranges := v6, prefixListIds := pl} : IpPermission))
        = sgPermMatch dest := funext fun a => rfl
    rw [hpred]
  · rw [fsm_fst_eq_flatMap]
    rw [List.mem_flatMap]
    constructor
    · rintro ⟨p, hp, hmem⟩
      refine ⟨p, hp, ?_⟩
      rw [sgPermWarnings] at hmem
      rcases List.mem_append.mp hmem with hmem | hmem
      · by_cases h6 : p.ipv6Ranges.length > 0
        · intro hnil; rw [hnil] at h6; simp at h6
        · simp [h6] at hmem
      · by_cases hp' : p.prefixListIds.length > 0 <;> simp [hp'] at hmem
    · rintro ⟨p, hp, hne⟩
      refine ⟨p, hp, ?_⟩
      have h6 : p.ipv6Ranges.length > 0 := List.length_pos.mpr hne
      rw [sgPermWarnings]
      simp [h6]
  · rw [fsm_fst_eq_flatMap]
    rw [List.mem_flatMap]
    constructor
    · rintro ⟨p, hp, hmem⟩
      refine ⟨p, hp, ?_⟩
      rw [sgPermWarnings] at hmem
      rcases List.mem_append.mp hmem with hmem | hmem
      · by_cases h6 : p.ipv6Ranges.length > 0 <;> simp [h6] at hmem
      · by_cases hp' : p.prefixListIds.length > 0
        · intro hnil; rw [hnil] at hp'; simp at hp'
        · simp [hp'] at hmem
    · rintro ⟨p, hp, hne⟩
      refine ⟨p, hp, ?_⟩
      have hp' : p.prefixListIds.length > 0 := List.length_pos.mpr hne
      rw [sgPermWarnings]
      simp [hp']
  · intro f hf
    rcases fsm_fst_cases perms dest f hf with h | h <;> rw [h] <;> rfl

/-- Witness for C9: a permission carrying only an IPv6 range raises the
IPv6 warning. -/
theorem sg_unsupported_rule_shapes_witness :
    Finding.sgIgnoringIpv6 ∈ (find_security_group_matches [permV6] d0).1 :=
  (sg_unsupported_rule_shapes [permV6] d0 [] []).2.1.mpr
    ⟨permV6, by decide, by decide⟩

/-- C5.  NACL evaluation returns exactly the entries whose CIDR contains the
destination, split into inbound (egress false) and outbound (egress true);
an empty relevant set in either direction is its own problem finding, and
the NACL problem flag is the disjunction of the two. -/
theorem nacl_evaluation_spec (nacl : Nacl) (dest : Nat) :
    ((find_nacl_rule_matches nacl.entries dest).1
      = nacl.entries.filter (fun e => cidrContains e.cidrBlock dest && !e.egress)) ∧
    ((find_nacl_rule_matches nacl.entries dest).2
      = nacl.entries.filter (fun e => cidrContains e.cidrBlock dest && e.egress)) ∧
    ((Finding.naclNoInbound ∈ (report_nacl nacl dest).1) ↔
      (find_nacl_rule_matches nacl.entries dest).1 = []) ∧
    ((Finding.naclNoOutbound ∈ (report_nacl nacl dest).1) ↔
      (find_nacl_rule_matches nacl.entries dest).2 = []) ∧
    ((report_nacl nacl dest).2
      = ((find_nacl_rule_matches nacl.entries dest).1.isEmpty
         || (find_nacl_rule_matches nacl.entries dest).2.isEmpty)) := by
  refine ⟨?_, ?_, ?_, ?_, rfl⟩
  · induction nacl.entries with
    | nil => rfl
    | cons e es ih =>
      simp only [find_nacl_rule_matches, List.filter_cons]
      by_cases hc : cidrContains e.cidrBlock dest
      · cases he : e.egress <;> simp [hc, he, ih]
      · simp [hc, ih]
  · induction nacl.entries with
    | nil => rfl
    | cons e es ih =>
      simp only [find_nacl_rule_matches, List.filter_cons]
      by_cases hc : cidrContains e.cidrBlock dest
      · cases he : e.egress <;> simp [hc, he, ih]
      · simp [hc, ih]
  · rw [report_nacl]
    by_cases hi : (find_nacl_rule_matches nacl.entries dest).1.isEmpty <;>
      by_cases ho : (find_nacl_rule_matches nacl.entries dest).2.isEmpty <;>
      simp_all [List.isEmpty_iff]
  · rw [report_nacl]
    by_cases hi : (find_nacl_rule_matches nacl.entries dest).1.isEmpty <;>
      by_cases ho : (find_nacl_rule_matches nacl.entries dest).2.isEmpty <;>
      simp_all [List.isEmpty_iff]

/-- Witness for C5 at the spec's example: a NACL covering only `10.0.0.0/24`
against destination `192.168.1.1` yields both problem findings. -/
theorem nacl_evaluation_spec_witness :
    (Finding.naclNoInbound ∈ (report_nacl ⟨[⟨⟨0x0A000000, 24⟩, false⟩]⟩ 0xC0A80101).1) ↔
      (find_nacl_rule_matches (⟨[⟨⟨0x0A000000, 24⟩, false⟩]⟩ : Nacl).entries 0xC0A80101).1 = [] :=
  (nacl_evaluation_spec ⟨[⟨⟨0x0A000000, 24⟩, false⟩]⟩ 0xC0A80101).2.2.1

theorem flatMap_sublist_of_mem {α β : Type} (f : α → List β) :
    ∀ (l : List α) (a : α), a ∈ l → (f a).Sublist (l.flatMap f) := by
  intro l
  induction l with
  | nil => intro a ha; simp at ha
  | cons x xs ih =>
    intro a ha
    rcases List.mem_cons.mp ha with ha | ha
    · rw [ha]
      simp only [List.flatMap_cons]
      exact List.sublist_append_left _ _
    · have h1 := ih a ha
      simp only [List.flatMap_cons]
      exact h1.trans (List.sublist_append_right _ _)

theorem any_flatMap {α β : Type} (f : α → List β) (p : β → Bool) (l : List α) :
    (l.flatMap f).any p = l.any (fun a => (f a).any p) := by
  induction l with
  | nil => rfl
  | cons x xs ih => simp [ih]

theorem reportBgpPeer_snd (p : BgpPeer) :
    (reportBgpPeer p).2 = (p.bgpStatus != "up" || p.bgpPeerState != "available") := by
  rw [reportBgpPeer]
  split <;> simp_all

theorem reportVif_snd (v : VirtualInterface) :
    (reportVif v).2 = ((v.virtualInterfaceState != "available")
      || v.bgpPeers.any (fun p => (reportBgpPeer p).2)) := rfl

theorem reportVif_snd_false_iff (v : VirtualInterface) :
    (reportVif v).2 = false ↔
      (v.virtualInterfaceState = "available" ∧
        ∀ p ∈ v.bgpPeers, p.bgpPeerState = "available" ∧ p.bgpStatus = "up") := by
  rw [reportVif_snd]
  simp only [Bool.or_eq_false_iff, List.any_eq_false, reportBgpPeer_snd]
  constructor
  · rintro ⟨h1, h2⟩
    refine ⟨by simpa using h1, ?_⟩
    intro p hp
    have := h2 p hp
    simp at this
    exact ⟨this.2, this.1⟩
  · rintro ⟨h1, h2⟩
    refine ⟨by simp [h1], ?_⟩
    intro p hp
    have := h2 p hp
    simp [this.1, this.2]

/-- C8.  Cross-connect virtual-interface validation: an empty interface list
is itself a problem; otherwise the check passes exactly when every interface
is available and all its BGP peers are available and up; every interface's
findings appear in the report (no abort on a bad sibling), and a
not-available interface contributes a problem finding naming it. -/
theorem dc_virtual_interface_spec (vifs : List VirtualInterface) :
    ((report_dc_virtual_interfaces vifs).2 = false ↔
      (vifs ≠ [] ∧ ∀ v ∈ vifs, v.virtualInterfaceState = "available" ∧
        ∀ p ∈ v.bgpPeers, p.bgpPeerState = "available" ∧ p.bgpStatus = "up")) ∧
    (vifs = [] → Finding.dcNoVifs ∈ (report_dc_virtual_interfaces vifs).1) ∧
    (∀ v ∈ vifs, ((reportVif v).1).Sublist (report_dc_virtual_interfaces vifs).1) ∧
    (∀ v ∈ vifs, v.virtualInterfaceState ≠ "available" →
      Finding.dcVifNotAvailable v ∈ (report_dc_virtual_interfaces vifs).1) := by
  refine ⟨?_, ?_, ?_, ?_⟩
  · cases vifs with
    | nil => simp [report_dc_virtual_interfaces]
    | cons x xs =>
      rw [report_dc_virtual_interfaces]
      simp only [List.isEmpty_cons, Bool.false_eq_true, if_false]
      simp only [List.any_eq_false]
      constructor
      · intro h
        refine ⟨by simp, ?_⟩
        intro v hv
        have h2 : (reportVif v).2 = false := by
          have := h v hv
          revert this
          cases (reportVif v).2 <;> simp
        exact (reportVif_snd_false_iff v).mp h2
      · rintro ⟨_, h⟩
        intro v hv
        have h2 : (reportVif v).2 = false :=
          (reportVif_snd_false_iff v).mpr (h v hv)
        simp [h2]
  · intro h
    subst h
    simp [report_dc_virtual_interfaces]
  · intro v hv
    rw [report_dc_virtual_interfaces]
    have hne : vifs.isEmpty = false := by
      cases vifs with
      | nil => simp at hv
      | cons x xs => rfl
    rw [hne]
    simp only [Bool.false_eq_true, if_false]
    exact flatMap_sublist_of_mem (fun v => (reportVif v).1) vifs v hv
  · intro v hv hbad
    rw [report_dc_virtual_interfaces]
    have hne : vifs.isEmpty = false := by
      cases vifs with
      | nil => simp at hv
      | cons x xs => rfl
    rw [hne]
    simp only [Bool.false_eq_true, if_false]
    have hmem : Finding.dcVifNotAvailable v ∈ (reportVif v).1 := by
      rw [reportVif]
      have hb : (v.virtualInterfaceState != "available") = true := by
        simp [hbad]
      simp [hb]
    exact ((flatMap_sublist_of_mem (fun v => (reportVif v).1) vifs v hv).subset) hmem

/-- Witness for C8: a single available interface with one healthy BGP peer
passes the check. -/
theorem dc_virtual_interface_spec_witness :
    (report_dc_virtual_interfaces [vifGood]).2 = false :=
  (dc_virtual_interface_spec [vifGood]).1.mpr ⟨by decide, by decide⟩

theorem reportBgpPeer_any (p : BgpPeer) :
    (reportBgpPeer p).1.any Finding.isProblem = (reportBgpPeer p).2 := by
  rw [reportBgpPeer]
  split <;> rfl

theorem reportVif_any (v : VirtualInterface) :
    (reportVif v).1.any Finding.isProblem = (reportVif v).2 := by
  rw [reportVif]
  cases hs : (v.virtualInterfaceState != "available") <;>
    cases hb : (v.bgpPeers.any (fun p => (reportBgpPeer p).2)) <;>
    simp [List.any_append, any_flatMap, reportBgpPeer_any, hs, hb, Finding.isProblem]

theorem report_dc_any (vifs : List VirtualInterface) :
    (report_dc_virtual_interfaces vifs).1.any Finding.isProblem
      = (report_dc_virtual_interfaces vifs).2 := by
  rw [report_dc_virtual_interfaces]
  by_cases h : vifs.isEmpty
  · simp [h, Finding.isProblem]
  · simp [h, any_flatMap, reportVif_any]

theorem report_nacl_any (nacl : Nacl) (dest : Nat) :
    (report_nacl nacl dest).1.any Finding.isProblem = (report_nacl nacl dest).2 := by
  rw [report_nacl]
  by_cases hi : (find_nacl_rule_matches nacl.entries dest).1.isEmpty <;>
    by_cases ho : (find_nacl_rule_matches nacl.entries dest).2.isEmpty <;>
    simp [hi, ho, Finding.isProblem]

theorem get_sg_ws_cases (env : Env) (ids : List String) (dest : Nat)
    (ws : List Finding) (ing eg : List IpPermission)
    (h : get_security_groups env ids dest = some (ws, ing, eg)) :
    ∀ f ∈ ws, f = Finding.sgIgnoringIpv6 ∨ f = Finding.sgIgnoringPrefixList := by
  rw [get_security_groups] at h
  split at h
  · obtain ⟨hw, _, _⟩ := Prod.mk.injEq _ _ _ _ ▸ Option.some.inj h
    intro f hf
    rw [← hw] at hf
    obtain ⟨g, _, hg⟩ := List.mem_flatMap.mp hf
    rcases List.mem_append.mp hg with hg | hg
    · exact fsm_fst_cases _ dest f hg
    · exact fsm_fst_cases _ dest f hg
  · exact Option.noConfusion h

theorem report_sg_any (env : Env) (ids : List String) (dest : Nat)
    (p : List Finding × Bool) (h : report_security_groups env ids dest = some p) :
    p.1.any Finding.isProblem = p.2 := by
  rw [report_security_groups] at h
  cases hg : get_security_groups env ids dest with
  | none => rw [hg] at h; exact Option.noConfusion h
  | some t =>
    obtain ⟨ws, ing, eg⟩ := t
    rw [hg] at h
    have hws : ws.any Finding.isProblem = false := by
      rw [List.any_eq_false]
      intro f hf
      rcases get_sg_ws_cases env ids dest ws ing eg hg f hf with h' | h' <;>
        rw [h'] <;> decide
    obtain rfl := (Option.some.inj h).symm
    by_cases hi : ing.isEmpty <;> by_cases he : eg.isEmpty <;>
      simp [hi, he, List.any_append, hws, Finding.isProblem]

theorem report_db_any (env : Env) (vpc : String) (ids : List String)
    (p : List Finding × Bool) (h : report_db_subnet_groups env vpc ids = some p) :
    p.1.any Finding.isProblem = false ∧ p.2 = false := by
  rw [report_db_subnet_groups.eq_def] at h
  split at h
  · exact Option.noConfusion h
  · rename_i rts hrts
    split at h
    · exact Option.noConfusion h
    · split at h
      · exact Option.noConfusion h
      · obtain rfl := (Option.some.inj h).symm
        by_cases h1 : rts.length > 1 <;>
          by_cases h2 : (env.naclsForSubnets ids).length > 1 <;>
          simp [h1, h2, List.any_append, Finding.isProblem]

theorem isProblem_otherGateway (g : String) :
    (Finding.otherGatewayNotAnalyzed g).isProblem = false := rfl

theorem isProblem_peeringDestInfo (i : PeeringVpcInfo) :
    (Finding.peeringDestInfo i).isProblem = false := rfl

theorem report_rt_any (env : Env) (rt : RouteTable) (vpc : String) (dest : Nat)
    (p : List Finding × Bool) (h : report_route_table env rt vpc dest = some p) :
    p.1.any Finding.isProblem = p.2 := by
  rw [report_route_table.eq_def] at h
  split at h
  · obtain rfl := (Option.some.inj h).symm
    decide
  · rename_i r hr
    rw [reportRouteTarget.eq_def] at h
    split at h
    · rename_i g hg
      split at h
      · rw [reportIgw.eq_def] at h
        split at h
        · split at h
          · split at h <;>
              { obtain rfl := (Option.some.inj h).symm; decide }
          · exact Option.noConfusion h
        · exact Option.noConfusion h
      · split at h
        · rw [reportVgw.eq_def] at h
          split at h
          · split at h
            · rename_i xg vgw hvgw xa att hatt
              obtain rfl := (Option.some.inj h).symm
              cases hs : (vgw.state != "available") <;>
                cases hat : (att.state != "attached") <;>
                simp [hs, hat, List.any_append, report_dc_any, Finding.isProblem]
            · exact Option.noConfusion h
          · exact Option.noConfusion h
        · obtain rfl := (Option.some.inj h).symm
          simp [isProblem_otherGateway]
    · split at h
      · rename_i n hn
        rw [reportNat.eq_def] at h
        split at h
        · rename_i ng hng
          obtain rfl := (Option.some.inj h).symm
          cases hs : (ng.state != "available") <;> simp [hs, Finding.isProblem]
        · exact Option.noConfusion h
      · split at h
        · rename_i pid hp
          rw [reportPeering.eq_def] at h
          split at h
          · rename_i pc hpc
            obtain rfl := (Option.some.inj h).symm
            cases hs : (pc.statusCode != "active") <;>
              simp [hs, List.any_append, Finding.isProblem, isProblem_peeringDestInfo]
          · exact Option.noConfusion h
        · obtain rfl := (Option.some.inj h).symm
          decide

/-- C3.  The final problem flag of a run is true iff some collected finding
has problem severity, and every component check runs and contributes its
findings to the report (problems never short-circuit later checks). -/
theorem main_problem_aggregation (env : Env) (db : Option (List String))
    (sgIds : List String) (vpc subnet : String) (dest : Nat)
    (fs : List Finding) (b : Bool)
    (h : mainAnalysis env db sgIds vpc subnet dest = some (fs, b)) :
    (b = fs.any Finding.isProblem) ∧
    ∃ dbp sgp rtp srcTable nacl1,
      (match db with
       | none => some (([] : List Finding), false)
       | some ids => report_db_subnet_groups env vpc ids) = some dbp ∧
      report_security_groups env sgIds dest = some sgp ∧
      get_route_table_for_subnet env vpc subnet = some srcTable ∧
      report_route_table env srcTable vpc dest = some rtp ∧
      env.naclsForSubnets [subnet] = [nacl1] ∧
      fs = dbp.1 ++ sgp.1 ++ rtp.1 ++ (report_nacl nacl1 dest).1 ∧
      b = (((dbp.2 || sgp.2) || rtp.2) || (report_nacl nacl1 dest).2) := by
  unfold mainAnalysis at h
  split at h
  · exact Option.noConfusion h
  · rename_i dbp hdbm
    split at h
    · exact Option.noConfusion h
    · rename_i sgp hsg
      split at h
      · exact Option.noConfusion h
      · rename_i srcTable hrt
        split at h
        · exact Option.noConfusion h
        · rename_i rtp hrr
          split at h
          · rename_i nacl1 hn
            have hinj := Option.some.inj h
            have hfs : dbp.1 ++ sgp.1 ++ rtp.1 ++ (report_nacl nacl1 dest).1 = fs :=
              congrArg Prod.fst hinj
            have hb : (((dbp.2 || sgp.2) || rtp.2) || (report_nacl nacl1 dest).2) = b :=
              congrArg Prod.snd hinj
            have hdbA : dbp.1.any Finding.isProblem = false ∧ dbp.2 = false := by
              cases db with
              | none =>
                obtain rfl := (Option.some.inj hdbm).symm
                exact ⟨rfl, rfl⟩
              | some ids => exact report_db_any env vpc ids dbp hdbm
            refine ⟨?_, dbp, sgp, rtp, srcTable, nacl1, hdbm, hsg, hrt, hrr, hn,
              hfs.symm, hb.symm⟩
            rw [← hfs, ← hb]
            simp [List.any_append, hdbA.1, hdbA.2, Bool.or_assoc,
              report_sg_any env sgIds dest sgp hsg,
              report_rt_any env srcTable vpc dest rtp hrr,
              report_nacl_any nacl1 dest]
          · exact Option.noConfusion h

/-- Witness for C3: a healthy snapshot yields no problem findings and a
false problem flag. -/
theorem main_problem_aggregation_witness :
    (false : Bool) = [Finding.igwOk].any Finding.isProblem :=
  (main_problem_aggregation env0 none ["sg-1"] "vpc-1" "subnet-1" d0
    [Finding.igwOk] false (by decide)).1

theorem reportRouteTarget_unknown (env : Env) (vpc : String) (r : Route)
    (hg : r.gatewayId = none) (hn : r.natGatewayId = none)
    (hp : r.vpcPeeringConnectionId = none) :
    reportRouteTarget env vpc r = some ([Finding.unknownRouteType], true) := by
  rw [reportRouteTarget.eq_def, hg, hn, hp]

theorem reportRouteTarget_other (env : Env) (vpc : String) (r : Route) (g : String)
    (hg : r.gatewayId = some g) (h1 : pyStartswith g "igw-" = false)
    (h2 : pyStartswith g "vgw-" = false) :
    reportRouteTarget env vpc r = some ([Finding.otherGatewayNotAnalyzed g], false) := by
  rw [reportRouteTarget.eq_def, hg]
  show (if pyStartswith g "igw-" then reportIgw env g
        else if pyStartswith g "vgw-" then reportVgw env g
        else some ([Finding.otherGatewayNotAnalyzed g], false))
      = some ([Finding.otherGatewayNotAnalyzed g], false)
  rw [h1, h2]
  simp

theorem reportRouteTarget_vgw (env : Env) (vpc : String) (r : Route) (g : String)
    (hg : r.gatewayId = some g) (h1 : pyStartswith g "igw-" = false)
    (h2 : pyStartswith g "vgw-" = true) :
    reportRouteTarget env vpc r = reportVgw env g := by
  rw [reportRouteTarget.eq_def, hg]
  show (if pyStartswith g "igw-" then reportIgw env g
        else if pyStartswith g "vgw-" then reportVgw env g
        else some ([Finding.otherGatewayNotAnalyzed g], false))
      = reportVgw env g
  rw [h1, h2]
  simp

theorem reportVgw_eq (env : Env) (g : String) (vgw : VpnGateway) (att : Attachment)
    (hv : env.vpnGateways g = [vgw]) (ha : vgw.vpcAttachments = [att]) :
    reportVgw env g
      = some ((if vgw.state != "available" then [Finding.vgwNotAvailable] else [])
          ++ (if att.state != "attached" then [Finding.vgwNotAttached] else [])
          ++ (report_dc_virtual_interfaces (get_dc_virtual_interface env g)).1,
          ((vgw.state != "available") || (att.state != "attached"))
          || (report_dc_virtual_interfaces (get_dc_virtual_interface env g)).2) := by
  simp only [reportVgw.eq_def, hv, ha]

/-- Counterexample for C6: a resolved route whose `GatewayId` is of an
unrecognized type (`tgw-…`) yields only a warning and NO problem — the
problem flag is false, contradicting "always a problem". -/
theorem unknown_gateway_counterexample :
    report_route_table env0 rtTgw "vpc-1" d0
      = some ([Finding.otherGatewayNotAnalyzed "tgw-1"], false) := by decide

/-- C6 (amended).  A resolved route carrying none of the recognized target
keys is always reported as a problem (unknown route type); but a resolved
route whose `GatewayId` has an unrecognized prefix yields only a
not-analyzed warning and no problem. -/
theorem unknown_gateway_amended (env : Env) (rt : RouteTable) (vpc : String)
    (dest : Nat) (fs : List Finding) (b : Bool) (r : Route)
    (h : report_route_table env rt vpc dest = some (fs, b))
    (hr : find_route_matches rt.routes dest = some r) :
    ((r.gatewayId = none ∧ r.natGatewayId = none ∧ r.vpcPeeringConnectionId = none) →
      Finding.unknownRouteType ∈ fs ∧ b = true) ∧
    (∀ g, r.gatewayId = some g → pyStartswith g "igw-" = false →
      pyStartswith g "vgw-" = false →
      fs = [Finding.otherGatewayNotAnalyzed g] ∧ b = false) := by
  rw [report_route_table.eq_def] at h
  split at h
  · rename_i hnone
    rw [hr] at hnone
    exact Option.noConfusion hnone
  · rename_i r' hr'
    rw [hr] at hr'
    obtain rfl := Option.some.inj hr'
    constructor
    · rintro ⟨hg, hn, hp⟩
      rw [reportRouteTarget_unknown env vpc r hg hn hp] at h
      have hinj := Option.some.inj h
      injection hinj with hfs hb
      refine ⟨?_, hb.symm⟩
      rw [← hfs]
      simp
    · intro g hg h1 h2
      rw [reportRouteTarget_other env vpc r g hg h1 h2] at h
      have hinj := Option.some.inj h
      injection hinj with hfs hb
      exact ⟨hfs.symm, hb.symm⟩

/-- Witness for amended C6 at the `tgw-1` route. -/
theorem unknown_gateway_amended_witness :
    [Finding.otherGatewayNotAnalyzed "tgw-1"] = [Finding.otherGatewayNotAnalyzed "tgw-1"]
      ∧ (false : Bool) = false :=
  (unknown_gateway_amended env0 rtTgw "vpc-1" d0
    [Finding.otherGatewayNotAnalyzed "tgw-1"] false
    ⟨some ⟨0, 0⟩, some "tgw-1", none, none⟩ (by decide) (by decide)).2
    "tgw-1" rfl (by decide) (by decide)

theorem dc_findings_are_dc (vifs : List VirtualInterface) :
    ∀ f ∈ (report_dc_virtual_interfaces vifs).1, f.isDcFinding = true := by
  intro f hf
  rw [report_dc_virtual_interfaces] at hf
  by_cases h : vifs.isEmpty
  · rw [if_pos h] at hf
    simp at hf
    rw [hf]
    rfl
  · rw [if_neg h] at hf
    obtain ⟨v, _, hfv⟩ := List.mem_flatMap.mp hf
    simp only [reportVif] at hfv
    rcases List.mem_append.mp hfv with hfv | hfv
    · rcases List.mem_append.mp hfv with hfv | hfv
      · by_cases hs : (v.virtualInterfaceState != "available") = true
        · rw [if_pos hs] at hfv; simp at hfv; rw [hfv]; rfl
        · rw [if_neg hs] at hfv; simp at hfv
      · obtain ⟨q, _, hfq⟩ := List.mem_flatMap.mp hfv
        rw [reportBgpPeer] at hfq
        split at hfq
        · simp at hfq; rw [hfq]; rfl
        · simp at hfq; rw [hfq]; rfl
    · by_cases hb : ((v.virtualInterfaceState != "available")
          || v.bgpPeers.any (fun p => (reportBgpPeer p).2)) = true
      · rw [if_pos hb] at hfv; simp at hfv
      · rw [if_neg hb] at hfv; simp at hfv; rw [hfv]; rfl

/-- Counterexample for C7: a virtual private gateway in state `pending`
(invalid) — the cross-connect check still runs, producing the
no-virtual-interface problem finding alongside the gateway-state problem. -/
theorem vgw_validity_counterexample :
    report_route_table env0 rtVgw "vpc-1" d0
      = some ([Finding.vgwNotAvailable, Finding.dcNoVifs], true) := by decide

/-- C7 (amended).  For a route to a virtual private gateway, gateway state
other than "available" and attachment state other than "attached" each
produce their own problem finding, and cross-connect virtual-interface
resolution is performed unconditionally — its findings are part of the
report whether or not the gateway is valid. -/
theorem vgw_validity_amended (env : Env) (rt : RouteTable) (vpc : String)
    (dest : Nat) (fs : List Finding) (b : Bool) (r : Route) (g : String)
    (vgw : VpnGateway) (att : Attachment)
    (h : report_route_table env rt vpc dest = some (fs, b))
    (hr : find_route_matches rt.routes dest = some r)
    (hg : r.gatewayId = some g)
    (h1 : pyStartswith g "igw-" = false)
    (h2 : pyStartswith g "vgw-" = true)
    (hv : env.vpnGateways g = [vgw])
    (ha : vgw.vpcAttachments = [att]) :
    ((Finding.vgwNotAvailable ∈ fs) ↔ vgw.state ≠ "available") ∧
    ((Finding.vgwNotAttached ∈ fs) ↔ att.state ≠ "attached") ∧
    fs = ((if vgw.state != "available" then [Finding.vgwNotAvailable] else [])
          ++ (if att.state != "attached" then [Finding.vgwNotAttached] else [])
          ++ (report_dc_virtual_interfaces (get_dc_virtual_interface env g)).1) ∧
    b = ((((vgw.state != "available") || (att.state != "attached"))
         || (report_dc_virtual_interfaces (get_dc_virtual_interface env g)).2)) := by
  rw [report_route_table.eq_def] at h
  split at h
  · rename_i hnone
    rw [hr] at hnone
    exact Option.noConfusion hnone
  · rename_i r' hr'
    rw [hr] at hr'
    obtain rfl := Option.some.inj hr'
    rw [reportRouteTarget_vgw env vpc r g hg h1 h2] at h
    rw [reportVgw_eq env g vgw att hv ha] at h
    have hinj := Option.some.inj h
    injection hinj with hfs hb
    have hdc := dc_findings_are_dc (get_dc_virtual_interface env g)
    refine ⟨?_, ?_, hfs.symm, hb.symm⟩
    · rw [← hfs]
      constructor
      · intro hm
        rcases List.mem_append.mp hm with hm | hm
        · rcases List.mem_append.mp hm with hm | hm
          · by_cases hs : (vgw.state != "available") = true
            · exact bne_iff_ne.mp hs
            · rw [if_neg hs] at hm; simp at hm
          · by_cases hat : (att.state != "attached") = true
            · rw [if_pos hat] at hm; simp at hm
            · rw [if_neg hat] at hm; simp at hm
        · have := hdc _ hm
          exact absurd this (by decide)
      · intro hne
        refine List.mem_append.mpr (Or.inl (List.mem_append.mpr (Or.inl ?_)))
        rw [if_pos (bne_iff_ne.mpr hne)]
        simp
    · rw [← hfs]
      constructor
      · intro hm
        rcases List.mem_append.mp hm with hm | hm
        · rcases List.mem_append.mp hm with hm | hm
          · by_cases hs : (vgw.state != "available") = true
            · rw [if_pos hs] at hm; simp at hm
            · rw [if_neg hs] at hm; simp at hm
          · by_cases hat : (att.state != "attached") = true
            · exact bne_iff_ne.mp hat
            · rw [if_neg hat] at hm; simp at hm
        · have := hdc _ hm
          exact absurd this (by decide)
      · intro hne
        refine List.mem_append.mpr (Or.inl (List.mem_append.mpr (Or.inr ?_)))
        rw [if_pos (bne_iff_ne.mpr hne)]
        simp

/-- Witness for amended C7 at the pending `vgw-1` gateway of the sample
snapshot. -/
theorem vgw_validity_amended_witness :
    (Finding.vgwNotAvailable ∈ [Finding.vgwNotAvailable, Finding.dcNoVifs]) ↔
      ("pending" : String) ≠ "available" :=
  (vgw_validity_amended env0 rtVgw "vpc-1" d0
    [Finding.vgwNotAvailable, Finding.dcNoVifs] true
    ⟨some ⟨0, 0⟩, some "vgw-1", none, none⟩ "vgw-1"
    ⟨"pending", [⟨"attached"⟩]⟩ ⟨"attached"⟩
    (by decide) (by decide) rfl (by decide) (by decide) rfl rfl).1

end Reach
